import Mathlib

set_option autoImplicit false

/-!
Shallow embedding of the powerbi-admin repository: the authenticated request
pipeline (`auth.py`, `client.py`) and the domain modules (`powerbi_admin/gateway.py`,
`powerbi_admin/workspace.py`).  HTTP transport is modelled as an environment: each
operation receives the `Response` the server would return for its single request.
Logging is modelled as a list of structured events carrying the dynamic values the
Python f-strings interpolate.
-/

/-- JSON values, as produced by `response.json()`. -/
inductive Json where
  | null : Json
  | bool : Bool → Json
  | num : Int → Json
  | str : String → Json
  | arr : List Json → Json
  | obj : List (String × Json) → Json

/-- The body of an HTTP response, classified by the two observations the code makes:
`response.content` truthiness and whether `response.json()` succeeds.
`empty` is no content (and is not valid JSON); `invalid raw` is non-empty content that
is not valid JSON; `json j` is content that parses to `j`. -/
inductive Body where
  | empty : Body
  | invalid : String → Body
  | json : Json → Body

/-- Truthiness of `response.content`. -/
def Body.hasContent : Body → Bool
  | .empty => false
  | .invalid _ => true
  | .json _ => true

/-- Result of `response.json()`: `some` on valid JSON, `none` when it would raise
`JSONDecodeError`. -/
def Body.tryJson : Body → Option Json
  | .empty => none
  | .invalid _ => none
  | .json j => some j

/-- An HTTP response: status code and body. -/
structure Response where
  status : Nat
  body : Body

/-- The Python exceptions that can cross function boundaries in this code. -/
inductive PyError where
  | httpError : Response → PyError
  | jsonDecodeError : PyError
  | credentialUnavailable : PyError
  | attributeError : PyError
  | typeError : PyError

/-- The HTTP status carried by an error, when it carries one
(`requests.exceptions.HTTPError` carries its `response`). -/
def PyError.statusOf : PyError → Option Nat
  | .httpError r => some r.status
  | _ => none

/-- Logging levels used by the code. -/
inductive LogLevel where
  | debug : LogLevel
  | info : LogLevel
  | warning : LogLevel
  | error : LogLevel
deriving DecidableEq

/-- One structured log record per logger call site, carrying the dynamic values
the corresponding f-string interpolates. -/
inductive LogMsg where
  -- auth.py
  | attemptingToken : LogMsg
  | acquiredToken : LogMsg
  | credentialFailed : LogMsg
  | credentialGuidance : LogMsg
  | unexpectedTokenError : LogMsg
  -- client.py
  | makingRequest : String → String → LogMsg
  | requestSuccessful : Nat → LogMsg
  | httpErrorOccurred : Response → LogMsg
  | postNotJson : String → Nat → LogMsg
  | deleteNoContent : String → Nat → LogMsg
  | deleteNotJson : String → Nat → LogMsg
  -- shared error-detail logging (gateway.py inline / workspace.py _log_api_error)
  | apiResponseStatus : Nat → LogMsg
  | apiResponseBodyJson : Json → LogMsg
  | apiResponseBodyText : Body → LogMsg
  -- gateway.py
  | fetchingGateways : LogMsg
  | foundGateways : Nat → LogMsg
  | fetchingDatasources : String → LogMsg
  | foundDatasources : Nat → String → LogMsg
  | fetchingDatasourceUsers : String → String → LogMsg
  | foundDatasourceUsers : Nat → String → LogMsg
  | couldNotGetDatasourceUsers : String → String → PyError → LogMsg
  | addingDatasourceUser : String → String → String → String → String → LogMsg
  | userWithoutEmailProblematic : String → LogMsg
  | addedDatasourceUser : String → String → String → LogMsg
  | failedAddDatasourceUser : String → String → String → PyError → LogMsg
  -- workspace.py
  | fetchingWorkspaces : LogMsg
  | foundWorkspaces : Nat → LogMsg
  | fetchingWorkspaceUsers : String → LogMsg
  | foundWorkspaceUsers : Nat → String → LogMsg
  | couldNotGetWorkspaceUsers : String → PyError → LogMsg
  | addingWorkspaceUser : String → String → String → String → LogMsg
  | userNoEmailAssumingIdentifier : String → LogMsg
  | addedWorkspaceUser : String → String → String → LogMsg
  | failedAddWorkspaceUser : String → String → String → PyError → LogMsg
  | deletingWorkspaceUser : String → String → LogMsg
  | deletedWorkspaceUser : String → String → LogMsg
  | failedDeleteWorkspaceUser : String → String → PyError → LogMsg

/-- A log event: level plus structured message. -/
structure LogEvent where
  level : LogLevel
  msg : LogMsg

/-- The warning-level events of a log. -/
def warningsOf (log : List LogEvent) : List LogEvent :=
  log.filter (fun e => e.level = LogLevel.warning)

/-! ## auth.py -/

/-- Outcome of the credential-strategy chain of `DefaultAzureCredential`
(external dependency, modelled as environment): each strategy either yields a
token or is unavailable; the first strategy that yields a token wins; if every
strategy is exhausted without success, `CredentialUnavailableError` is raised. -/
def DefaultAzureCredential.get_token : List (Option String) → Except PyError String
  | [] => .error .credentialUnavailable
  | some t :: _ => .ok t
  | none :: rest => DefaultAzureCredential.get_token rest

/-- Model of `PowerBIAuth`: holds the credential chain (modelled by the outcomes of its
ordered strategies). -/
structure PowerBIAuth where
  strategies : List (Option String)

/-- Model of `PowerBIAuth.get_access_token` (auth.py lines 32-60): try the credential chain;
on success log and return the token; on `CredentialUnavailableError` log the failure
and the remediation guidance and re-raise; any other exception is logged and
re-raised. -/
def PowerBIAuth.get_access_token (auth : PowerBIAuth) :
    Except PyError String × List LogEvent :=
  let log0 : List LogEvent := [⟨.info, .attemptingToken⟩]
  match DefaultAzureCredential.get_token auth.strategies with
  | .ok t => (.ok t, log0 ++ [⟨.info, .acquiredToken⟩])
  | .error .credentialUnavailable =>
      (.error .credentialUnavailable,
       log0 ++ [⟨.error, .credentialFailed⟩, ⟨.error, .credentialGuidance⟩])
  | .error e => (.error e, log0 ++ [⟨.error, .unexpectedTokenError⟩])

/-! ## client.py -/

/-- Model of `PowerBIClient.BASE_URL`. -/
def BASE_URL : String := "https://api.powerbi.com/v1.0/myorg"

/-- Model of the lstrip call on the endpoint: remove every leading slash character. -/
def lstripSlash (endpoint : String) : String :=
  String.mk (endpoint.data.dropWhile (fun c => c == '/'))

/-- The absolute URL built by `_request` (client.py line 38): the fixed base URL,
one slash, and the endpoint with its leading slashes stripped. -/
def buildUrl (endpoint : String) : String :=
  BASE_URL ++ "/" ++ lstripSlash endpoint

/-- Model of `PowerBIClient`: wraps the auth handler (the HTTP session is the environment). -/
structure PowerBIClient where
  auth : PowerBIAuth

/-- The headers built by `_get_headers`. -/
structure HeadersPB where
  authorization : String
  contentType : String

/-- Model of `PowerBIClient._get_headers`: acquire a token and build the bearer headers;
auth errors propagate. -/
def PowerBIClient.get_headers (c : PowerBIClient) :
    Except PyError HeadersPB × List LogEvent :=
  match c.auth.get_access_token with
  | (.ok t, log) => (.ok ⟨"Bearer " ++ t, "application/json"⟩, log)
  | (.error e, log) => (.error e, log)

/-- Model of `response.raise_for_status()`: raises `HTTPError` exactly for 4xx/5xx statuses. -/
def raise_for_status (r : Response) : Except PyError Unit :=
  if 400 ≤ r.status ∧ r.status < 600 then .error (.httpError r) else .ok ()

/-- Model of `PowerBIClient._request` (client.py lines 24-52): build the URL, get headers
(auth errors propagate, uncaught), log the request, issue it (the environment
supplies `resp`), call `raise_for_status`; on `HTTPError` log the error with the
response text and re-raise, otherwise log success and return the response. -/
def PowerBIClient.request (c : PowerBIClient) (method endpoint : String)
    (resp : Response) : Except PyError Response × List LogEvent :=
  let url := buildUrl endpoint
  match c.get_headers with
  | (.error e, log) => (.error e, log)
  | (.ok _, log) =>
      let log := log ++ [⟨.debug, .makingRequest method url⟩]
      match raise_for_status resp with
      | .error e => (.error e, log ++ [⟨.error, .httpErrorOccurred resp⟩])
      | .ok _ => (.ok resp, log ++ [⟨.debug, .requestSuccessful resp.status⟩])

/-- Model of `PowerBIClient.get` (client.py lines 54-65): `_request` then `response.json()`;
a body that fails to parse raises `JSONDecodeError` (no handler here). -/
def PowerBIClient.get (c : PowerBIClient) (endpoint : String) (resp : Response) :
    Except PyError Json × List LogEvent :=
  match c.request "GET" endpoint resp with
  | (.error e, log) => (.error e, log)
  | (.ok r, log) =>
      match r.body.tryJson with
      | some j => (.ok j, log)
      | none => (.error .jsonDecodeError, log)

/-- Model of `PowerBIClient.post` (client.py lines 67-88): `_request`; a 204 returns `{}`;
otherwise `response.json()`, and on `JSONDecodeError` log a warning and return `{}`. -/
def PowerBIClient.post (c : PowerBIClient) (endpoint : String) (_jsonBody : Option Json)
    (resp : Response) : Except PyError Json × List LogEvent :=
  match c.request "POST" endpoint resp with
  | (.error e, log) => (.error e, log)
  | (.ok r, log) =>
      if r.status == 204 then (.ok (.obj []), log)
      else
        match r.body.tryJson with
        | some j => (.ok j, log)
        | none => (.ok (.obj []), log ++ [⟨.warning, .postNotJson endpoint r.status⟩])

/-- Model of `PowerBIClient.delete` (client.py lines 90-107): `_request`; a 200/204 with no
content logs a debug message and returns `{}`; otherwise `response.json()`, and on
`JSONDecodeError` log a warning and return `{}`. -/
def PowerBIClient.delete (c : PowerBIClient) (endpoint : String) (resp : Response) :
    Except PyError Json × List LogEvent :=
  match c.request "DELETE" endpoint resp with
  | (.error e, log) => (.error e, log)
  | (.ok r, log) =>
      if (r.status == 200 || r.status == 204) && !r.body.hasContent then
        (.ok (.obj []), log ++ [⟨.debug, .deleteNoContent endpoint r.status⟩])
      else
        match r.body.tryJson with
        | some j => (.ok j, log)
        | none => (.ok (.obj []), log ++ [⟨.warning, .deleteNotJson endpoint r.status⟩])

/-- Auth succeeds for this client: the credential chain yields a token. -/
def authOk (c : PowerBIClient) : Prop :=
  ∃ t, DefaultAzureCredential.get_token c.auth.strategies = .ok t

/-! ## Python built-ins used by the domain modules -/

/-- Python `d.get(key, default)` on a parsed JSON value: a lookup on a mapping,
an `AttributeError` on anything that is not a mapping. -/
def pyDictGet (j : Json) (key : String) (dflt : Json) : Except PyError Json :=
  match j with
  | .obj kvs => .ok ((kvs.lookup key).getD dflt)
  | _ => .error .attributeError

/-- Python `len` on a parsed JSON value: defined on lists, mappings and strings,
a `TypeError` on anything else. -/
def pyLen : Json → Except PyError Nat
  | .arr xs => .ok xs.length
  | .obj kvs => .ok kvs.length
  | .str s => .ok s.length
  | _ => .error .typeError

/-- Python truthiness of an optional string (`if s:`): `None` and `""` are falsy. -/
def pyTruthyStr : Option String → Bool
  | none => false
  | some s => !s.isEmpty

/-- Python truthiness of an optional integer (`if n:`): `None` and `0` are falsy. -/
def pyTruthyInt : Option Int → Bool
  | none => false
  | some n => n != 0

/-- Python truthiness of an optional dict (`if d:`): `None` and `{}` are falsy. -/
def pyTruthyDict : Option (List (String × Json)) → Bool
  | none => false
  | some kvs => !kvs.isEmpty

/-- Model of `WorkspaceAdmin._log_api_error` (workspace.py lines 152-159), textually repeated
inline in gateway.py: when the exception carries a `response`, log its status, then
its parsed JSON body, falling back to its raw text. -/
def log_api_error (e : PyError) : List LogEvent :=
  match e with
  | .httpError r =>
      [⟨.error, .apiResponseStatus r.status⟩] ++
      (match r.body.tryJson with
       | some j => [⟨.error, .apiResponseBodyJson j⟩]
       | none => [⟨.error, .apiResponseBodyText r.body⟩])
  | _ => []

/-! ## powerbi_admin/gateway.py -/

/-- Model of `GatewayAdmin`: wraps the client. -/
structure GatewayAdmin where
  client : PowerBIClient

/-- Model of `GatewayAdmin.get_gateways` (gateway.py lines 12-24): `GET gateways`, then
`response.get("value", [])`, log the count, return the list.  Errors (from the
client, from `.get` on a non-mapping, from `len`) propagate. -/
def GatewayAdmin.get_gateways (g : GatewayAdmin) (resp : Response) :
    Except PyError Json × List LogEvent :=
  let log0 : List LogEvent := [⟨.info, .fetchingGateways⟩]
  match g.client.get "gateways" resp with
  | (.error e, log) => (.error e, log0 ++ log)
  | (.ok j, log) =>
      match pyDictGet j "value" (.arr []) with
      | .error e => (.error e, log0 ++ log)
      | .ok gateways =>
          match pyLen gateways with
          | .error e => (.error e, log0 ++ log)
          | .ok n => (.ok gateways, log0 ++ log ++ [⟨.info, .foundGateways n⟩])

/-- Model of `GatewayAdmin.get_gateway_datasources` (gateway.py lines 26-42): same shape on
`GET gateways/{id}/datasources`. -/
def GatewayAdmin.get_gateway_datasources (g : GatewayAdmin) (gateway_id : String)
    (resp : Response) : Except PyError Json × List LogEvent :=
  let log0 : List LogEvent := [⟨.info, .fetchingDatasources gateway_id⟩]
  let endpoint := "gateways/" ++ gateway_id ++ "/datasources"
  match g.client.get endpoint resp with
  | (.error e, log) => (.error e, log0 ++ log)
  | (.ok j, log) =>
      match pyDictGet j "value" (.arr []) with
      | .error e => (.error e, log0 ++ log)
      | .ok datasources =>
          match pyLen datasources with
          | .error e => (.error e, log0 ++ log)
          | .ok n =>
              (.ok datasources, log0 ++ log ++ [⟨.info, .foundDatasources n gateway_id⟩])

/-- Model of `GatewayAdmin.get_gateway_datasource_users` (gateway.py lines 44-74):
`GET gateways/{gw}/datasources/{ds}/users` inside a `try` that catches every
exception: on any error, log it (with status and body when the exception carries a
response) and return `[]`; never raise. -/
def GatewayAdmin.get_gateway_datasource_users (g : GatewayAdmin)
    (gateway_id datasource_id : String) (resp : Response) : Json × List LogEvent :=
  let log0 : List LogEvent := [⟨.info, .fetchingDatasourceUsers datasource_id gateway_id⟩]
  let endpoint := "gateways/" ++ gateway_id ++ "/datasources/" ++ datasource_id ++ "/users"
  let errLogs := fun (e : PyError) =>
    [(⟨.error, .couldNotGetDatasourceUsers datasource_id gateway_id e⟩ : LogEvent)] ++
      log_api_error e
  match g.client.get endpoint resp with
  | (.error e, log) => (.arr [], log0 ++ log ++ errLogs e)
  | (.ok j, log) =>
      match pyDictGet j "value" (.arr []) with
      | .error e => (.arr [], log0 ++ log ++ errLogs e)
      | .ok users =>
          match pyLen users with
          | .error e => (.arr [], log0 ++ log ++ errLogs e)
          | .ok n =>
              (users, log0 ++ log ++ [⟨.info, .foundDatasourceUsers n datasource_id⟩])

/-- The payload built by `GatewayAdmin.add_datasource_user` (gateway.py lines
107-121), together with the warning it may log: base fields `identifier`,
`principalType`, `datasourceUserAccessRight`; `displayName`/`emailAddress` added
when truthy; `profile` added for a truthy profile on a ServicePrincipal; a warning
for a User principal without email. -/
def GatewayAdmin.add_datasource_user_payload (principal_id principal_type access_right : String)
    (display_name email_address : Option String)
    (profile : Option (List (String × Json))) : List (String × Json) × List LogEvent :=
  let payload : List (String × Json) :=
    [("identifier", .str principal_id),
     ("principalType", .str principal_type),
     ("datasourceUserAccessRight", .str access_right)]
  let payload :=
    if pyTruthyStr display_name then
      payload ++ [("displayName", .str (display_name.getD ""))]
    else payload
  let payload :=
    if pyTruthyStr email_address then
      payload ++ [("emailAddress", .str (email_address.getD ""))]
    else payload
  if principal_type == "ServicePrincipal" && pyTruthyDict profile then
    (payload ++ [("profile", .obj (profile.getD []))], [])
  else if principal_type == "User" && !pyTruthyStr email_address then
    (payload, [⟨.warning, .userWithoutEmailProblematic principal_id⟩])
  else (payload, [])

/-- Model of `GatewayAdmin.add_datasource_user` (gateway.py lines 76-137): build the payload,
`POST gateways/{gw}/datasources/{ds}/users`; return `True` on success; on any
exception log it (with status and body when available) and return `False`. -/
def GatewayAdmin.add_datasource_user (g : GatewayAdmin)
    (gateway_id datasource_id principal_id principal_type access_right : String)
    (display_name email_address : Option String)
    (profile : Option (List (String × Json))) (resp : Response) :
    Bool × List LogEvent :=
  let log0 : List LogEvent :=
    [⟨.info, .addingDatasourceUser principal_type principal_id datasource_id gateway_id
        access_right⟩]
  let endpoint := "gateways/" ++ gateway_id ++ "/datasources/" ++ datasource_id ++ "/users"
  let (payload, plog) :=
    GatewayAdmin.add_datasource_user_payload principal_id principal_type access_right
      display_name email_address profile
  match g.client.post endpoint (some (.obj payload)) resp with
  | (.ok _, log) =>
      (true, log0 ++ plog ++ log ++
        [⟨.info, .addedDatasourceUser principal_type principal_id datasource_id⟩])
  | (.error e, log) =>
      (false, log0 ++ plog ++ log ++
        [⟨.error, .failedAddDatasourceUser principal_id datasource_id gateway_id e⟩] ++
        log_api_error e)

/-! ## powerbi_admin/workspace.py -/

/-- Model of `WorkspaceAdmin`: wraps the client. -/
structure WorkspaceAdmin where
  client : PowerBIClient

/-- The query parameters built by `get_workspaces` (workspace.py lines 26-32):
each of `$filter`, `$top`, `$skip` is added only when truthy. -/
def WorkspaceAdmin.get_workspaces_params (filter_str : Option String)
    (top skip : Option Int) : List (String × String) :=
  let params : List (String × String) := []
  let params :=
    if pyTruthyStr filter_str then params ++ [("$filter", filter_str.getD "")] else params
  let params :=
    if pyTruthyInt top then params ++ [("$top", toString (top.getD 0))] else params
  if pyTruthyInt skip then params ++ [("$skip", toString (skip.getD 0))] else params

/-- Model of `WorkspaceAdmin.get_workspaces` (workspace.py lines 12-37): `GET groups` with
the optional OData parameters, then `response.get("value", [])`, log the count,
return the list.  Errors propagate. -/
def WorkspaceAdmin.get_workspaces (w : WorkspaceAdmin) (filter_str : Option String)
    (top skip : Option Int) (resp : Response) : Except PyError Json × List LogEvent :=
  let log0 : List LogEvent := [⟨.info, .fetchingWorkspaces⟩]
  let _params := WorkspaceAdmin.get_workspaces_params filter_str top skip
  match w.client.get "groups" resp with
  | (.error e, log) => (.error e, log0 ++ log)
  | (.ok j, log) =>
      match pyDictGet j "value" (.arr []) with
      | .error e => (.error e, log0 ++ log)
      | .ok workspaces =>
          match pyLen workspaces with
          | .error e => (.error e, log0 ++ log)
          | .ok n => (.ok workspaces, log0 ++ log ++ [⟨.info, .foundWorkspaces n⟩])

/-- Model of `WorkspaceAdmin.get_workspace_users` (workspace.py lines 39-61):
`GET groups/{id}/users` inside a `try` that catches every exception: on any error,
log it (via `_log_api_error`) and return `[]`; never raise. -/
def WorkspaceAdmin.get_workspace_users (w : WorkspaceAdmin) (workspace_id : String)
    (resp : Response) : Json × List LogEvent :=
  let log0 : List LogEvent := [⟨.info, .fetchingWorkspaceUsers workspace_id⟩]
  let endpoint := "groups/" ++ workspace_id ++ "/users"
  let errLogs := fun (e : PyError) =>
    [(⟨.error, .couldNotGetWorkspaceUsers workspace_id e⟩ : LogEvent)] ++ log_api_error e
  match w.client.get endpoint resp with
  | (.error e, log) => (.arr [], log0 ++ log ++ errLogs e)
  | (.ok j, log) =>
      match pyDictGet j "value" (.arr []) with
      | .error e => (.arr [], log0 ++ log ++ errLogs e)
      | .ok users =>
          match pyLen users with
          | .error e => (.arr [], log0 ++ log ++ errLogs e)
          | .ok n => (users, log0 ++ log ++ [⟨.info, .foundWorkspaceUsers n workspace_id⟩])

/-- The payload built by `WorkspaceAdmin.add_workspace_user` (workspace.py lines
92-105), together with the warning it may log: base fields `identifier`,
`principalType`, `groupUserAccessRight`; for a User principal, `emailAddress`
is the given email when truthy, otherwise it is populated from `identifier`
(with a warning logged). -/
def WorkspaceAdmin.add_workspace_user_payload (identifier principal_type access_right : String)
    (email_address : Option String) : List (String × Json) × List LogEvent :=
  let payload : List (String × Json) :=
    [("identifier", .str identifier),
     ("principalType", .str principal_type),
     ("groupUserAccessRight", .str access_right)]
  if principal_type == "User" then
    if pyTruthyStr email_address then
      (payload ++ [("emailAddress", .str (email_address.getD ""))], [])
    else
      (payload ++ [("emailAddress", .str identifier)],
       [⟨.warning, .userNoEmailAssumingIdentifier identifier⟩])
  else (payload, [])

/-- Model of `WorkspaceAdmin.add_workspace_user` (workspace.py lines 63-112): build the
payload, `POST groups/{id}/users`; return `True` on success; on any exception log
it (via `_log_api_error`) and return `False`. -/
def WorkspaceAdmin.add_workspace_user (w : WorkspaceAdmin)
    (workspace_id identifier principal_type access_right : String)
    (email_address : Option String) (resp : Response) : Bool × List LogEvent :=
  let log0 : List LogEvent :=
    [⟨.info, .addingWorkspaceUser principal_type identifier workspace_id access_right⟩]
  let endpoint := "groups/" ++ workspace_id ++ "/users"
  let (payload, plog) :=
    WorkspaceAdmin.add_workspace_user_payload identifier principal_type access_right
      email_address
  match w.client.post endpoint (some (.obj payload)) resp with
  | (.ok _, log) =>
      (true, log0 ++ plog ++ log ++
        [⟨.info, .addedWorkspaceUser principal_type identifier workspace_id⟩])
  | (.error e, log) =>
      (false, log0 ++ plog ++ log ++
        [⟨.error, .failedAddWorkspaceUser principal_type identifier workspace_id e⟩] ++
        log_api_error e)

/-- Model of `WorkspaceAdmin.delete_workspace_user` (workspace.py lines 114-150):
`DELETE groups/{id}/users/{identifier}` issued through the low-level `_request`
(bypassing `client.delete`); return `True` on success; on any exception log it
(via `_log_api_error`) and return `False`. -/
def WorkspaceAdmin.delete_workspace_user (w : WorkspaceAdmin)
    (workspace_id identifier : String) (_principal_type : Option String)
    (resp : Response) : Bool × List LogEvent :=
  let log0 : List LogEvent := [⟨.info, .deletingWorkspaceUser identifier workspace_id⟩]
  let endpoint := "groups/" ++ workspace_id ++ "/users/" ++ identifier
  match w.client.request "DELETE" endpoint resp with
  | (.ok _, log) =>
      (true, log0 ++ log ++ [⟨.info, .deletedWorkspaceUser identifier workspace_id⟩])
  | (.error e, log) =>
      (false, log0 ++ log ++
        [⟨.error, .failedDeleteWorkspaceUser identifier workspace_id e⟩] ++
        log_api_error e)

/-! ## Helper lemmas -/

/-- A client whose credential chain has one successful strategy, used to
instantiate universally quantified statements. -/
def someClient : PowerBIClient := ⟨⟨[some "tok"]⟩⟩

/-- The log emitted by a request up to the point the HTTP call is issued. -/
def preRequestLog (method endpoint : String) : List LogEvent :=
  [⟨.info, .attemptingToken⟩, ⟨.info, .acquiredToken⟩,
   ⟨.debug, .makingRequest method (buildUrl endpoint)⟩]

theorem request_eq_ok (c : PowerBIClient) (method endpoint : String) (resp : Response)
    (t : String) (ht : DefaultAzureCredential.get_token c.auth.strategies = .ok t)
    (hs : ¬(400 ≤ resp.status ∧ resp.status < 600)) :
    c.request method endpoint resp =
      (.ok resp, preRequestLog method endpoint ++ [⟨.debug, .requestSuccessful resp.status⟩]) := by
  unfold PowerBIClient.request PowerBIClient.get_headers PowerBIAuth.get_access_token
  rw [ht]
  simp [raise_for_status, hs, preRequestLog]

theorem request_eq_err (c : PowerBIClient) (method endpoint : String) (resp : Response)
    (t : String) (ht : DefaultAzureCredential.get_token c.auth.strategies = .ok t)
    (h4 : 400 ≤ resp.status) (h6 : resp.status < 600) :
    c.request method endpoint resp =
      (.error (.httpError resp),
       preRequestLog method endpoint ++ [⟨.error, .httpErrorOccurred resp⟩]) := by
  unfold PowerBIClient.request PowerBIClient.get_headers PowerBIAuth.get_access_token
  rw [ht]
  simp [raise_for_status, h4, h6, preRequestLog]

theorem request_eq_of_token_err (c : PowerBIClient) (method endpoint : String)
    (resp : Response) (e : PyError)
    (ht : DefaultAzureCredential.get_token c.auth.strategies = .error e) :
    ∃ log, c.request method endpoint resp = (.error e, log) := by
  unfold PowerBIClient.request PowerBIClient.get_headers PowerBIAuth.get_access_token
  rw [ht]
  cases e <;> simp

theorem get_token_total (l : List (Option String)) :
    (∃ t, DefaultAzureCredential.get_token l = .ok t) ∨
    (∃ e, DefaultAzureCredential.get_token l = .error e) := by
  cases h : DefaultAzureCredential.get_token l with
  | ok t => exact .inl ⟨t, rfl⟩
  | error e => exact .inr ⟨e, rfl⟩

/-! ## Claims -/

/-- Claim C1: for every HTTP response with a 4xx/5xx status, each of `get`, `post`
and `delete` raises an `HTTPError` carrying the response (hence a status equal to
the response's status) and never returns a mapping; the error is raised at this
layer, not downgraded. -/
theorem claim_C1_non2xx_raises (c : PowerBIClient) (endpoint : String)
    (jsonBody : Option Json) (resp : Response) (hauth : authOk c)
    (h4 : 400 ≤ resp.status) (h6 : resp.status < 600) :
    (c.get endpoint resp).fst = .error (.httpError resp) ∧
    (c.post endpoint jsonBody resp).fst = .error (.httpError resp) ∧
    (c.delete endpoint resp).fst = .error (.httpError resp) ∧
    PyError.statusOf (.httpError resp) = some resp.status := by
  obtain ⟨t, ht⟩ := hauth
  refine ⟨?_, ?_, ?_, rfl⟩
  · simp [PowerBIClient.get, request_eq_err c "GET" endpoint resp t ht h4 h6]
  · simp [PowerBIClient.post, request_eq_err c "POST" endpoint resp t ht h4 h6]
  · simp [PowerBIClient.delete, request_eq_err c "DELETE" endpoint resp t ht h4 h6]

/-- Witness for C1 at a concrete 404 response. -/
theorem claim_C1_witness :
    (someClient.get "gateways" ⟨404, .empty⟩).fst = .error (.httpError ⟨404, .empty⟩) ∧
    (someClient.post "gateways" none ⟨404, .empty⟩).fst = .error (.httpError ⟨404, .empty⟩) ∧
    (someClient.delete "gateways" ⟨404, .empty⟩).fst = .error (.httpError ⟨404, .empty⟩) ∧
    PyError.statusOf (.httpError ⟨404, .empty⟩) = some 404 :=
  claim_C1_non2xx_raises someClient "gateways" none ⟨404, .empty⟩ ⟨"tok", rfl⟩
    (by norm_num) (by norm_num)

/-- Claim C3: for every 2xx response with an empty body, `post` and `delete`
return the empty mapping and never raise. -/
theorem claim_C3_2xx_empty_body (c : PowerBIClient) (endpoint : String)
    (jsonBody : Option Json) (resp : Response) (hauth : authOk c)
    (h2 : 200 ≤ resp.status) (h3 : resp.status < 300) (hb : resp.body = .empty) :
    (c.post endpoint jsonBody resp).fst = .ok (.obj []) ∧
    (c.delete endpoint resp).fst = .ok (.obj []) := by
  obtain ⟨t, ht⟩ := hauth
  have hs : ¬(400 ≤ resp.status ∧ resp.status < 600) := by omega
  constructor
  · simp only [PowerBIClient.post, request_eq_ok c "POST" endpoint resp t ht hs]
    by_cases h204 : resp.status = 204
    · simp [h204]
    · simp [h204, hb, Body.tryJson]
  · simp only [PowerBIClient.delete, request_eq_ok c "DELETE" endpoint resp t ht hs]
    by_cases h200 : resp.status = 200
    · simp [h200, hb, Body.hasContent]
    · by_cases h204 : resp.status = 204
      · simp [h204, hb, Body.hasContent]
      · simp [h200, h204, hb, Body.hasContent, Body.tryJson]

/-- Witness for C3 at a concrete 201 response with empty body. -/
theorem claim_C3_witness :
    (someClient.post "groups/g1/users" none ⟨201, .empty⟩).fst = .ok (.obj []) ∧
    (someClient.delete "groups/g1/users/u1" ⟨201, .empty⟩).fst = .ok (.obj []) :=
  claim_C3_2xx_empty_body someClient "groups/g1/users" none ⟨201, .empty⟩ ⟨"tok", rfl⟩
    (by norm_num) (by norm_num) rfl

theorem get_token_all_none (l : List (Option String)) (h : ∀ s ∈ l, s = none) :
    DefaultAzureCredential.get_token l = .error .credentialUnavailable := by
  induction l with
  | nil => rfl
  | cons a rest ih =>
      have ha := h a (by simp)
      subst ha
      simpa [DefaultAzureCredential.get_token] using
        ih (fun s hs => h s (by simp [hs]))

/-- Claim C5: if every credential strategy fails to produce a token,
`get_access_token` raises `CredentialUnavailable` (propagated, not swallowed)
and returns no token. -/
theorem claim_C5_all_strategies_fail (auth : PowerBIAuth)
    (h : ∀ s ∈ auth.strategies, s = none) :
    auth.get_access_token.fst = .error .credentialUnavailable ∧
    ∀ t, auth.get_access_token.fst ≠ .ok t := by
  have hc := get_token_all_none auth.strategies h
  constructor
  · simp [PowerBIAuth.get_access_token, hc]
  · intro t
    simp [PowerBIAuth.get_access_token, hc]

/-- Witness for C5: a chain of two failing strategies. -/
theorem claim_C5_witness :
    (PowerBIAuth.get_access_token ⟨[none, none]⟩).fst = .error .credentialUnavailable ∧
    ∀ t, (PowerBIAuth.get_access_token ⟨[none, none]⟩).fst ≠ .ok t :=
  claim_C5_all_strategies_fail ⟨[none, none]⟩ (by decide)

theorem head_dropWhileSlash_ne (l : List Char) :
    ((l.dropWhile (fun c => c == '/')).head? ≠ some '/') := by
  induction l with
  | nil => simp
  | cons a rest ih =>
      by_cases h : a = '/'
      · subst h
        simpa [List.dropWhile_cons] using ih
      · simp [List.dropWhile_cons, h]

/-- Claim C9: for every endpoint string, the absolute URL is exactly the fixed base
URL, one separator, and the endpoint with its leading slashes stripped; the stripped
endpoint does not start with a slash and the base URL does not end with one, so no
double separator occurs at the join point. -/
theorem claim_C9_url_join (endpoint : String) :
    (buildUrl endpoint).data =
      BASE_URL.data ++ '/' :: (endpoint.data.dropWhile (fun c => c == '/')) ∧
    (endpoint.data.dropWhile (fun c => c == '/')).head? ≠ some '/' ∧
    BASE_URL.data.getLast? ≠ some '/' := by
  refine ⟨?_, head_dropWhileSlash_ne endpoint.data, by decide⟩
  show (BASE_URL ++ "/" ++ lstripSlash endpoint).data = _
  rw [String.data_append, String.data_append]
  rfl

/-- Counterexample to claim C2 as stated: on a 200 response whose body is not valid
JSON, `get` raises `JSONDecodeError` instead of returning an empty mapping — the
tolerant-success policy does not cover GET. -/
theorem claim_C2_counterexample :
    (someClient.get "gateways" ⟨200, .invalid "oops"⟩).fst = .error .jsonDecodeError ∧
    (someClient.get "gateways" ⟨200, .invalid "oops"⟩).fst ≠ .ok (.obj []) :=
  ⟨rfl, fun h => nomatch h⟩

/-- Claim C2 (amended): for every response whose status indicates success (2xx) but
whose body is not valid JSON, `post` and `delete` return an empty mapping without
raising — logging a warning except on the no-content success paths (POST with
status 204; DELETE with status 200/204 and no content) — while `get` raises a
JSON decode error rather than returning a mapping. -/
theorem claim_C2_amended_success_non_json (c : PowerBIClient) (endpoint : String)
    (jsonBody : Option Json) (resp : Response) (hauth : authOk c)
    (h2 : 200 ≤ resp.status) (h3 : resp.status < 300)
    (hbody : resp.body.tryJson = none) :
    (c.get endpoint resp).fst = .error .jsonDecodeError ∧
    (c.post endpoint jsonBody resp).fst = .ok (.obj []) ∧
    (c.delete endpoint resp).fst = .ok (.obj []) ∧
    (resp.status ≠ 204 →
      (⟨.warning, .postNotJson endpoint resp.status⟩ : LogEvent) ∈
        (c.post endpoint jsonBody resp).snd) ∧
    (¬((resp.status = 200 ∨ resp.status = 204) ∧ resp.body.hasContent = false) →
      (⟨.warning, .deleteNotJson endpoint resp.status⟩ : LogEvent) ∈
        (c.delete endpoint resp).snd) := by
  obtain ⟨t, ht⟩ := hauth
  have hs : ¬(400 ≤ resp.status ∧ resp.status < 600) := by omega
  have hget := request_eq_ok c "GET" endpoint resp t ht hs
  have hpost := request_eq_ok c "POST" endpoint resp t ht hs
  have hdel := request_eq_ok c "DELETE" endpoint resp t ht hs
  refine ⟨?_, ?_, ?_, ?_, ?_⟩
  · simp [PowerBIClient.get, hget, hbody]
  · simp only [PowerBIClient.post, hpost]
    by_cases h204 : resp.status = 204
    · simp [h204]
    · simp [h204, hbody]
  · simp only [PowerBIClient.delete, hdel]
    by_cases hnc : ((resp.status == 200 || resp.status == 204) && !resp.body.hasContent) = true
    · simp [hnc]
    · simp [hnc, hbody]
  · intro h204
    simp [PowerBIClient.post, hpost, h204, hbody]
  · intro hncp
    have hb : ¬(((resp.status == 200 || resp.status == 204) && !resp.body.hasContent) = true) := by
      simpa [Bool.and_eq_true, Bool.or_eq_true, beq_iff_eq, Bool.not_eq_true'] using hncp
    simp [PowerBIClient.delete, hdel, hb, hbody]

/-- Witness for the amended C2 at a concrete 200 response with a non-JSON body. -/
theorem claim_C2_amended_witness :
    (someClient.get "gateways" ⟨200, .invalid "<html>"⟩).fst = .error .jsonDecodeError ∧
    (someClient.post "gateways" none ⟨200, .invalid "<html>"⟩).fst = .ok (.obj []) ∧
    (someClient.delete "gateways" ⟨200, .invalid "<html>"⟩).fst = .ok (.obj []) ∧
    (⟨.warning, .postNotJson "gateways" 200⟩ : LogEvent) ∈
      (someClient.post "gateways" none ⟨200, .invalid "<html>"⟩).snd ∧
    (⟨.warning, .deleteNotJson "gateways" 200⟩ : LogEvent) ∈
      (someClient.delete "gateways" ⟨200, .invalid "<html>"⟩).snd := by
  have h := claim_C2_amended_success_non_json someClient "gateways" none
    ⟨200, .invalid "<html>"⟩ ⟨"tok", rfl⟩ (by norm_num) (by norm_num) rfl
  exact ⟨h.1, h.2.1, h.2.2.1, h.2.2.2.1 (by norm_num),
    h.2.2.2.2 (by simp [Body.hasContent])⟩

/-- Counterexample to claim C4 as stated: a 200 response with an empty body (which
is not valid JSON) makes `delete` return the empty mapping through the no-content
path, whose log entry is at debug level — no warning is logged. -/
theorem claim_C4_counterexample :
    (someClient.delete "groups/g1/users/u1" ⟨200, .empty⟩).fst = .ok (.obj []) ∧
    warningsOf (someClient.delete "groups/g1/users/u1" ⟨200, .empty⟩).snd = [] ∧
    (⟨.debug, .deleteNoContent "groups/g1/users/u1" 200⟩ : LogEvent) ∈
      (someClient.delete "groups/g1/users/u1" ⟨200, .empty⟩).snd := by
  refine ⟨rfl, rfl, ?_⟩
  simp [PowerBIClient.delete, PowerBIClient.request, PowerBIClient.get_headers,
    PowerBIAuth.get_access_token, someClient, DefaultAzureCredential.get_token,
    raise_for_status, Body.hasContent]

/-- Claim C4 (amended): for every 200 response whose body is non-empty and not
valid JSON, `post` and `delete` return an empty mapping, log a warning and do not
raise; for a 200 response with an empty body both still return an empty mapping
without raising, and `post` still logs a warning, but `delete` takes the
no-content path and logs at debug level with no warning. -/
theorem claim_C4_amended_200_non_json (c : PowerBIClient) (endpoint : String)
    (jsonBody : Option Json) (resp : Response) (hauth : authOk c)
    (h200 : resp.status = 200) :
    (∀ raw, resp.body = .invalid raw →
      (c.post endpoint jsonBody resp).fst = .ok (.obj []) ∧
      (⟨.warning, .postNotJson endpoint resp.status⟩ : LogEvent) ∈
        (c.post endpoint jsonBody resp).snd ∧
      (c.delete endpoint resp).fst = .ok (.obj []) ∧
      (⟨.warning, .deleteNotJson endpoint resp.status⟩ : LogEvent) ∈
        (c.delete endpoint resp).snd) ∧
    (resp.body = .empty →
      (c.post endpoint jsonBody resp).fst = .ok (.obj []) ∧
      (⟨.warning, .postNotJson endpoint resp.status⟩ : LogEvent) ∈
        (c.post endpoint jsonBody resp).snd ∧
      (c.delete endpoint resp).fst = .ok (.obj []) ∧
      (⟨.debug, .deleteNoContent endpoint resp.status⟩ : LogEvent) ∈
        (c.delete endpoint resp).snd ∧
      warningsOf (c.delete endpoint resp).snd = []) := by
  obtain ⟨t, ht⟩ := hauth
  have hs : ¬(400 ≤ resp.status ∧ resp.status < 600) := by omega
  have hpost := request_eq_ok c "POST" endpoint resp t ht hs
  have hdel := request_eq_ok c "DELETE" endpoint resp t ht hs
  constructor
  · intro raw hb
    refine ⟨?_, ?_, ?_, ?_⟩
    · simp [PowerBIClient.post, hpost, h200, hb, Body.tryJson]
    · simp [PowerBIClient.post, hpost, h200, hb, Body.tryJson]
    · simp [PowerBIClient.delete, hdel, h200, hb, Body.hasContent, Body.tryJson]
    · simp [PowerBIClient.delete, hdel, h200, hb, Body.hasContent, Body.tryJson]
  · intro hb
    refine ⟨?_, ?_, ?_, ?_, ?_⟩
    · simp [PowerBIClient.post, hpost, h200, hb, Body.tryJson]
    · simp [PowerBIClient.post, hpost, h200, hb, Body.tryJson]
    · simp [PowerBIClient.delete, hdel, h200, hb, Body.hasContent]
    · simp [PowerBIClient.delete, hdel, h200, hb, Body.hasContent]
    · simp [PowerBIClient.delete, hdel, h200, hb, Body.hasContent, warningsOf,
        preRequestLog, List.filter]

/-- Witness for the amended C4 at concrete 200 responses. -/
theorem claim_C4_amended_witness :
    (someClient.post "groups/g1/users" none ⟨200, .invalid "ok"⟩).fst = .ok (.obj []) ∧
    (⟨.warning, .postNotJson "groups/g1/users" 200⟩ : LogEvent) ∈
      (someClient.post "groups/g1/users" none ⟨200, .invalid "ok"⟩).snd ∧
    (someClient.delete "groups/g1/users/u1" ⟨200, .empty⟩).fst = .ok (.obj []) ∧
    warningsOf (someClient.delete "groups/g1/users/u1" ⟨200, .empty⟩).snd = [] := by
  have h1 := (claim_C4_amended_200_non_json someClient "groups/g1/users" none
    ⟨200, .invalid "ok"⟩ ⟨"tok", rfl⟩ rfl).1 "ok" rfl
  have h2 := (claim_C4_amended_200_non_json someClient "groups/g1/users/u1" none
    ⟨200, .empty⟩ ⟨"tok", rfl⟩ rfl).2 rfl
  exact ⟨h1.1, h1.2.1, h2.2.2.1, h2.2.2.2.2⟩

/-- Claim C6: `add_workspace_user` for a User principal with no email address
sends a payload whose `emailAddress` equals the `identifier` argument, alongside
`identifier`, `principalType` and `groupUserAccessRight`, and returns `true` when
the request succeeds with a 200 response. -/
theorem claim_C6_add_user_email_from_identifier (c : PowerBIClient)
    (workspace_id identifier access_right : String) (resp : Response)
    (hauth : authOk c) (h200 : resp.status = 200) :
    (WorkspaceAdmin.add_workspace_user_payload identifier "User" access_right none).fst.lookup
        "emailAddress" = some (.str identifier) ∧
    (WorkspaceAdmin.add_workspace_user_payload identifier "User" access_right none).fst.lookup
        "identifier" = some (.str identifier) ∧
    (WorkspaceAdmin.add_workspace_user_payload identifier "User" access_right none).fst.lookup
        "principalType" = some (.str "User") ∧
    (WorkspaceAdmin.add_workspace_user_payload identifier "User" access_right none).fst.lookup
        "groupUserAccessRight" = some (.str access_right) ∧
    (WorkspaceAdmin.add_workspace_user ⟨c⟩ workspace_id identifier "User" access_right none
        resp).fst = true := by
  obtain ⟨t, ht⟩ := hauth
  have hs : ¬(400 ≤ resp.status ∧ resp.status < 600) := by omega
  have hreq := request_eq_ok c "POST" ("groups/" ++ workspace_id ++ "/users") resp t ht hs
  refine ⟨rfl, rfl, rfl, rfl, ?_⟩
  simp only [WorkspaceAdmin.add_workspace_user, WorkspaceAdmin.add_workspace_user_payload,
    PowerBIClient.post, hreq, h200]
  rcases hb : resp.body.tryJson with _ | j <;> simp [hb]

/-- Witness for C6 at a concrete input and a 200 response. -/
theorem claim_C6_witness :
    (WorkspaceAdmin.add_workspace_user_payload "alice@x.com" "User" "Member" none).fst.lookup
        "emailAddress" = some (.str "alice@x.com") ∧
    (WorkspaceAdmin.add_workspace_user_payload "alice@x.com" "User" "Member" none).fst.lookup
        "identifier" = some (.str "alice@x.com") ∧
    (WorkspaceAdmin.add_workspace_user_payload "alice@x.com" "User" "Member" none).fst.lookup
        "principalType" = some (.str "User") ∧
    (WorkspaceAdmin.add_workspace_user_payload "alice@x.com" "User" "Member" none).fst.lookup
        "groupUserAccessRight" = some (.str "Member") ∧
    (WorkspaceAdmin.add_workspace_user ⟨someClient⟩ "g1" "alice@x.com" "User" "Member" none
        ⟨200, .empty⟩).fst = true :=
  claim_C6_add_user_email_from_identifier someClient "g1" "alice@x.com" "Member"
    ⟨200, .empty⟩ ⟨"tok", rfl⟩ rfl

/-- Claim C10: when a listing call succeeds (2xx) with a JSON mapping that lacks
the `value` key, `get_gateways`, `get_gateway_datasources` and `get_workspaces`
each return the empty list rather than raising or returning a non-list value. -/
theorem claim_C10_missing_value_key (c : PowerBIClient) (gateway_id : String)
    (filter_str : Option String) (top skip : Option Int) (st : Nat)
    (kvs : List (String × Json)) (hauth : authOk c) (h2 : 200 ≤ st) (h3 : st < 300)
    (hkey : kvs.lookup "value" = none) :
    (GatewayAdmin.get_gateways ⟨c⟩ ⟨st, .json (.obj kvs)⟩).fst = .ok (.arr []) ∧
    (GatewayAdmin.get_gateway_datasources ⟨c⟩ gateway_id ⟨st, .json (.obj kvs)⟩).fst =
      .ok (.arr []) ∧
    (WorkspaceAdmin.get_workspaces ⟨c⟩ filter_str top skip ⟨st, .json (.obj kvs)⟩).fst =
      .ok (.arr []) := by
  obtain ⟨t, ht⟩ := hauth
  have hs : ¬(400 ≤ (⟨st, .json (.obj kvs)⟩ : Response).status ∧
      (⟨st, .json (.obj kvs)⟩ : Response).status < 600) := by simp; omega
  refine ⟨?_, ?_, ?_⟩
  · simp [GatewayAdmin.get_gateways, PowerBIClient.get,
      request_eq_ok c "GET" "gateways" ⟨st, .json (.obj kvs)⟩ t ht hs,
      Body.tryJson, pyDictGet, hkey, pyLen]
  · simp [GatewayAdmin.get_gateway_datasources, PowerBIClient.get,
      request_eq_ok c "GET" ("gateways/" ++ gateway_id ++ "/datasources")
        ⟨st, .json (.obj kvs)⟩ t ht hs,
      Body.tryJson, pyDictGet, hkey, pyLen]
  · simp [WorkspaceAdmin.get_workspaces, PowerBIClient.get,
      request_eq_ok c "GET" "groups" ⟨st, .json (.obj kvs)⟩ t ht hs,
      Body.tryJson, pyDictGet, hkey, pyLen]

/-- Witness for C10 at a concrete 200 response whose mapping has no `value` key. -/
theorem claim_C10_witness :
    (GatewayAdmin.get_gateways ⟨someClient⟩
        ⟨200, .json (.obj [("odataContext", .str "x")])⟩).fst = .ok (.arr []) ∧
    (GatewayAdmin.get_gateway_datasources ⟨someClient⟩ "gw1"
        ⟨200, .json (.obj [("odataContext", .str "x")])⟩).fst = .ok (.arr []) ∧
    (WorkspaceAdmin.get_workspaces ⟨someClient⟩ none none none
        ⟨200, .json (.obj [("odataContext", .str "x")])⟩).fst = .ok (.arr []) :=
  claim_C10_missing_value_key someClient "gw1" none none none 200
    [("odataContext", .str "x")] ⟨"tok", rfl⟩ (by norm_num) (by norm_num) rfl

/-- Claim C7: every error while fetching one datasource's users is caught by
`get_gateway_datasource_users`, which returns the empty list instead of
propagating; for an API error (4xx/5xx) it logs the failure together with the
response's status and its body (parsed when possible, raw otherwise). -/
theorem claim_C7_datasource_users_degrade (c : PowerBIClient) (gw ds : String)
    (resp : Response) :
    ((c.get ("gateways/" ++ gw ++ "/datasources/" ++ ds ++ "/users") resp).fst.isOk = false →
      (GatewayAdmin.get_gateway_datasource_users ⟨c⟩ gw ds resp).fst = .arr []) ∧
    (authOk c → 400 ≤ resp.status → resp.status < 600 →
      (GatewayAdmin.get_gateway_datasource_users ⟨c⟩ gw ds resp).fst = .arr [] ∧
      (⟨.error, .couldNotGetDatasourceUsers ds gw (.httpError resp)⟩ : LogEvent) ∈
        (GatewayAdmin.get_gateway_datasource_users ⟨c⟩ gw ds resp).snd ∧
      (⟨.error, .apiResponseStatus resp.status⟩ : LogEvent) ∈
        (GatewayAdmin.get_gateway_datasource_users ⟨c⟩ gw ds resp).snd ∧
      (∀ j, resp.body.tryJson = some j →
        (⟨.error, .apiResponseBodyJson j⟩ : LogEvent) ∈
          (GatewayAdmin.get_gateway_datasource_users ⟨c⟩ gw ds resp).snd) ∧
      (resp.body.tryJson = none →
        (⟨.error, .apiResponseBodyText resp.body⟩ : LogEvent) ∈
          (GatewayAdmin.get_gateway_datasource_users ⟨c⟩ gw ds resp).snd)) := by
  constructor
  · intro h
    rcases hg : c.get ("gateways/" ++ gw ++ "/datasources/" ++ ds ++ "/users") resp
      with ⟨res, log⟩
    rw [hg] at h
    cases res with
    | ok a => simp [Except.isOk, Except.toBool] at h
    | error e => simp [GatewayAdmin.get_gateway_datasource_users, hg]
  · intro hauth h4 h6
    obtain ⟨t, ht⟩ := hauth
    have hget : c.get ("gateways/" ++ gw ++ "/datasources/" ++ ds ++ "/users") resp =
        (.error (.httpError resp),
         preRequestLog "GET" ("gateways/" ++ gw ++ "/datasources/" ++ ds ++ "/users") ++
           [⟨.error, .httpErrorOccurred resp⟩]) := by
      simp [PowerBIClient.get,
        request_eq_err c "GET" ("gateways/" ++ gw ++ "/datasources/" ++ ds ++ "/users")
          resp t ht h4 h6]
    refine ⟨?_, ?_, ?_, ?_, ?_⟩
    · simp [GatewayAdmin.get_gateway_datasource_users, hget]
    · simp [GatewayAdmin.get_gateway_datasource_users, hget]
    · rcases hb : resp.body.tryJson with _ | j <;>
        simp [GatewayAdmin.get_gateway_datasource_users, hget, log_api_error, hb]
    · intro j hj
      simp [GatewayAdmin.get_gateway_datasource_users, hget, log_api_error, hj]
    · intro hb
      simp [GatewayAdmin.get_gateway_datasource_users, hget, log_api_error, hb]

/-- Witness for C7 at a concrete 403 response with a JSON error body. -/
theorem claim_C7_witness :
    (GatewayAdmin.get_gateway_datasource_users ⟨someClient⟩ "gw1" "ds1"
        ⟨403, .json (.obj [("error", .str "forbidden")])⟩).fst = .arr [] ∧
    (⟨.error, .apiResponseStatus 403⟩ : LogEvent) ∈
      (GatewayAdmin.get_gateway_datasource_users ⟨someClient⟩ "gw1" "ds1"
        ⟨403, .json (.obj [("error", .str "forbidden")])⟩).snd ∧
    (⟨.error, .apiResponseBodyJson (.obj [("error", .str "forbidden")])⟩ : LogEvent) ∈
      (GatewayAdmin.get_gateway_datasource_users ⟨someClient⟩ "gw1" "ds1"
        ⟨403, .json (.obj [("error", .str "forbidden")])⟩).snd := by
  have h := (claim_C7_datasource_users_degrade someClient "gw1" "ds1"
    ⟨403, .json (.obj [("error", .str "forbidden")])⟩).2 ⟨"tok", rfl⟩
    (by norm_num) (by norm_num)
  exact ⟨h.1, h.2.2.1, h.2.2.2.1 (.obj [("error", .str "forbidden")]) rfl⟩

theorem post_eq_err (c : PowerBIClient) (endpoint : String) (jsonBody : Option Json)
    (resp : Response) (t : String)
    (ht : DefaultAzureCredential.get_token c.auth.strategies = .ok t)
    (h4 : 400 ≤ resp.status) (h6 : resp.status < 600) :
    c.post endpoint jsonBody resp =
      (.error (.httpError resp),
       preRequestLog "POST" endpoint ++ [⟨.error, .httpErrorOccurred resp⟩]) := by
  simp [PowerBIClient.post, request_eq_err c "POST" endpoint resp t ht h4 h6]

theorem post_fst_isOk (c : PowerBIClient) (endpoint : String) (jsonBody : Option Json)
    (resp : Response) (t : String)
    (ht : DefaultAzureCredential.get_token c.auth.strategies = .ok t)
    (hs : ¬(400 ≤ resp.status ∧ resp.status < 600)) :
    (c.post endpoint jsonBody resp).fst.isOk = true := by
  have hreq := request_eq_ok c "POST" endpoint resp t ht hs
  simp only [PowerBIClient.post, hreq]
  by_cases h204 : resp.status = 204
  · simp [h204, Except.isOk, Except.toBool]
  · rcases hb : resp.body.tryJson with _ | j <;>
      simp [h204, hb, Except.isOk, Except.toBool]

theorem add_datasource_user_fst_eq (c : PowerBIClient)
    (gateway_id datasource_id principal_id principal_type access_right : String)
    (display_name email_address : Option String)
    (profile : Option (List (String × Json))) (resp : Response) :
    (GatewayAdmin.add_datasource_user ⟨c⟩ gateway_id datasource_id principal_id
        principal_type access_right display_name email_address profile resp).fst =
      (c.post ("gateways/" ++ gateway_id ++ "/datasources/" ++ datasource_id ++ "/users")
        (some (.obj (GatewayAdmin.add_datasource_user_payload principal_id principal_type
          access_right display_name email_address profile).fst)) resp).fst.isOk := by
  simp only [GatewayAdmin.add_datasource_user]
  rcases hpl : GatewayAdmin.add_datasource_user_payload principal_id principal_type
    access_right display_name email_address profile with ⟨payload, plog⟩
  simp only [hpl]
  rcases hp : c.post ("gateways/" ++ gateway_id ++ "/datasources/" ++ datasource_id ++ "/users")
    (some (.obj payload)) resp with ⟨res, log⟩
  simp only [hp]
  cases res <;> simp [Except.isOk, Except.toBool]

theorem add_workspace_user_fst_eq (c : PowerBIClient)
    (workspace_id identifier principal_type access_right : String)
    (email_address : Option String) (resp : Response) :
    (WorkspaceAdmin.add_workspace_user ⟨c⟩ workspace_id identifier principal_type
        access_right email_address resp).fst =
      (c.post ("groups/" ++ workspace_id ++ "/users")
        (some (.obj (WorkspaceAdmin.add_workspace_user_payload identifier principal_type
          access_right email_address).fst)) resp).fst.isOk := by
  simp only [WorkspaceAdmin.add_workspace_user]
  rcases hpl : WorkspaceAdmin.add_workspace_user_payload identifier principal_type
    access_right email_address with ⟨payload, plog⟩
  simp only [hpl]
  rcases hp : c.post ("groups/" ++ workspace_id ++ "/users") (some (.obj payload)) resp
    with ⟨res, log⟩
  simp only [hp]
  cases res <;> simp [Except.isOk, Except.toBool]

theorem delete_workspace_user_fst_eq (c : PowerBIClient) (workspace_id identifier : String)
    (principal_type_hint : Option String) (resp : Response) :
    (WorkspaceAdmin.delete_workspace_user ⟨c⟩ workspace_id identifier principal_type_hint
        resp).fst =
      (c.request "DELETE" ("groups/" ++ workspace_id ++ "/users/" ++ identifier)
        resp).fst.isOk := by
  simp only [WorkspaceAdmin.delete_workspace_user]
  rcases hp : c.request "DELETE" ("groups/" ++ workspace_id ++ "/users/" ++ identifier) resp
    with ⟨res, log⟩
  simp only [hp]
  cases res <;> simp [Except.isOk, Except.toBool]

/-- Claim C8: the mutating operations `add_datasource_user`, `add_workspace_user`
and `delete_workspace_user` return exactly the success of their underlying request
as a boolean: `true` when it succeeds, `false` on any error (HTTP error, or a
credential failure inside the call), logging the failure — never propagating an
exception (they are total boolean-valued functions). -/
theorem claim_C8_mutating_boolean (c : PowerBIClient)
    (gateway_id datasource_id principal_id principal_type access_right
      workspace_id identifier : String)
    (display_name email_address : Option String)
    (profile : Option (List (String × Json)))
    (principal_type_hint : Option String) (resp : Response) :
    ((GatewayAdmin.add_datasource_user ⟨c⟩ gateway_id datasource_id principal_id
        principal_type access_right display_name email_address profile resp).fst =
      (c.post ("gateways/" ++ gateway_id ++ "/datasources/" ++ datasource_id ++ "/users")
        (some (.obj (GatewayAdmin.add_datasource_user_payload principal_id principal_type
          access_right display_name email_address profile).fst)) resp).fst.isOk) ∧
    ((WorkspaceAdmin.add_workspace_user ⟨c⟩ workspace_id identifier principal_type
        access_right email_address resp).fst =
      (c.post ("groups/" ++ workspace_id ++ "/users")
        (some (.obj (WorkspaceAdmin.add_workspace_user_payload identifier principal_type
          access_right email_address).fst)) resp).fst.isOk) ∧
    ((WorkspaceAdmin.delete_workspace_user ⟨c⟩ workspace_id identifier
        principal_type_hint resp).fst =
      (c.request "DELETE" ("groups/" ++ workspace_id ++ "/users/" ++ identifier)
        resp).fst.isOk) ∧
    (authOk c → ¬(400 ≤ resp.status ∧ resp.status < 600) →
      (GatewayAdmin.add_datasource_user ⟨c⟩ gateway_id datasource_id principal_id
        principal_type access_right display_name email_address profile resp).fst = true ∧
      (WorkspaceAdmin.add_workspace_user ⟨c⟩ workspace_id identifier principal_type
        access_right email_address resp).fst = true ∧
      (WorkspaceAdmin.delete_workspace_user ⟨c⟩ workspace_id identifier
        principal_type_hint resp).fst = true) ∧
    (authOk c → 400 ≤ resp.status → resp.status < 600 →
      (GatewayAdmin.add_datasource_user ⟨c⟩ gateway_id datasource_id principal_id
        principal_type access_right display_name email_address profile resp).fst = false ∧
      (WorkspaceAdmin.add_workspace_user ⟨c⟩ workspace_id identifier principal_type
        access_right email_address resp).fst = false ∧
      (WorkspaceAdmin.delete_workspace_user ⟨c⟩ workspace_id identifier
        principal_type_hint resp).fst = false ∧
      (⟨.error, .failedAddDatasourceUser principal_id datasource_id gateway_id
          (.httpError resp)⟩ : LogEvent) ∈
        (GatewayAdmin.add_datasource_user ⟨c⟩ gateway_id datasource_id principal_id
          principal_type access_right display_name email_address profile resp).snd ∧
      (⟨.error, .failedAddWorkspaceUser principal_type identifier workspace_id
          (.httpError resp)⟩ : LogEvent) ∈
        (WorkspaceAdmin.add_workspace_user ⟨c⟩ workspace_id identifier principal_type
          access_right email_address resp).snd ∧
      (⟨.error, .failedDeleteWorkspaceUser identifier workspace_id
          (.httpError resp)⟩ : LogEvent) ∈
        (WorkspaceAdmin.delete_workspace_user ⟨c⟩ workspace_id identifier
          principal_type_hint resp).snd) ∧
    (¬authOk c →
      (GatewayAdmin.add_datasource_user ⟨c⟩ gateway_id datasource_id principal_id
        principal_type access_right display_name email_address profile resp).fst = false ∧
      (WorkspaceAdmin.add_workspace_user ⟨c⟩ workspace_id identifier principal_type
        access_right email_address resp).fst = false ∧
      (WorkspaceAdmin.delete_workspace_user ⟨c⟩ workspace_id identifier
        principal_type_hint resp).fst = false) := by
  have hA := add_datasource_user_fst_eq c gateway_id datasource_id principal_id
    principal_type access_right display_name email_address profile resp
  have hB := add_workspace_user_fst_eq c workspace_id identifier principal_type
    access_right email_address resp
  have hC := delete_workspace_user_fst_eq c workspace_id identifier principal_type_hint resp
  refine ⟨hA, hB, hC, ?_, ?_, ?_⟩
  · rintro ⟨t, ht⟩ hs
    refine ⟨?_, ?_, ?_⟩
    · rw [hA]
      exact post_fst_isOk c _ _ resp t ht hs
    · rw [hB]
      exact post_fst_isOk c _ _ resp t ht hs
    · rw [hC, request_eq_ok c "DELETE"
        ("groups/" ++ workspace_id ++ "/users/" ++ identifier) resp t ht hs]
      rfl
  · rintro ⟨t, ht⟩ h4 h6
    refine ⟨?_, ?_, ?_, ?_, ?_, ?_⟩
    · rw [hA, post_eq_err c _ _ resp t ht h4 h6]
      rfl
    · rw [hB, post_eq_err c _ _ resp t ht h4 h6]
      rfl
    · rw [hC, request_eq_err c "DELETE"
        ("groups/" ++ workspace_id ++ "/users/" ++ identifier) resp t ht h4 h6]
      rfl
    · simp only [GatewayAdmin.add_datasource_user]
      rcases hpl : GatewayAdmin.add_datasource_user_payload principal_id principal_type
        access_right display_name email_address profile with ⟨payload, plog⟩
      simp only [hpl]
      rw [post_eq_err c ("gateways/" ++ gateway_id ++ "/datasources/" ++ datasource_id ++
        "/users") (some (.obj payload)) resp t ht h4 h6]
      simp
    · simp only [WorkspaceAdmin.add_workspace_user]
      rcases hpl : WorkspaceAdmin.add_workspace_user_payload identifier principal_type
        access_right email_address with ⟨payload, plog⟩
      simp only [hpl]
      rw [post_eq_err c ("groups/" ++ workspace_id ++ "/users") (some (.obj payload))
        resp t ht h4 h6]
      simp
    · simp only [WorkspaceAdmin.delete_workspace_user]
      rw [request_eq_err c "DELETE"
        ("groups/" ++ workspace_id ++ "/users/" ++ identifier) resp t ht h4 h6]
      simp
  · intro hna
    rcases get_token_total c.auth.strategies with ⟨t, ht⟩ | ⟨e, ht⟩
    · exact absurd ⟨t, ht⟩ hna
    · obtain ⟨logG, hrG⟩ := request_eq_of_token_err c "POST"
        ("gateways/" ++ gateway_id ++ "/datasources/" ++ datasource_id ++ "/users") resp e ht
      obtain ⟨logW, hrW⟩ := request_eq_of_token_err c "POST"
        ("groups/" ++ workspace_id ++ "/users") resp e ht
      obtain ⟨logD, hrD⟩ := request_eq_of_token_err c "DELETE"
        ("groups/" ++ workspace_id ++ "/users/" ++ identifier) resp e ht
      refine ⟨?_, ?_, ?_⟩
      · rw [hA]
        simp [PowerBIClient.post, hrG, Except.isOk, Except.toBool]
      · rw [hB]
        simp [PowerBIClient.post, hrW, Except.isOk, Except.toBool]
      · rw [hC]
        simp [hrD, Except.isOk, Except.toBool]

/-- Witness for C8: success at a 200 response, failure at a 500 response with its
logged diagnostics, failure when no credential strategy succeeds. -/
theorem claim_C8_witness :
    (GatewayAdmin.add_datasource_user ⟨someClient⟩ "gw1" "ds1" "p1" "Group" "Read"
      none none none ⟨200, .empty⟩).fst = true ∧
    (WorkspaceAdmin.add_workspace_user ⟨someClient⟩ "g1" "u1" "Group" "Member" none
      ⟨200, .empty⟩).fst = true ∧
    (WorkspaceAdmin.delete_workspace_user ⟨someClient⟩ "g1" "u1" none
      ⟨200, .empty⟩).fst = true ∧
    (GatewayAdmin.add_datasource_user ⟨someClient⟩ "gw1" "ds1" "p1" "Group" "Read"
      none none none ⟨500, .empty⟩).fst = false ∧
    (⟨.error, .failedAddDatasourceUser "p1" "ds1" "gw1"
        (.httpError ⟨500, .empty⟩)⟩ : LogEvent) ∈
      (GatewayAdmin.add_datasource_user ⟨someClient⟩ "gw1" "ds1" "p1" "Group" "Read"
        none none none ⟨500, .empty⟩).snd ∧
    (WorkspaceAdmin.add_workspace_user ⟨⟨⟨[none]⟩⟩⟩ "g1" "u1" "Group" "Member" none
      ⟨200, .empty⟩).fst = false := by
  have h200 := (claim_C8_mutating_boolean someClient "gw1" "ds1" "p1" "Group" "Read"
    "g1" "u1" none none none none ⟨200, .empty⟩).2.2.2.1 ⟨"tok", rfl⟩ (by norm_num)
  have h500 := (claim_C8_mutating_boolean someClient "gw1" "ds1" "p1" "Group" "Read"
    "g1" "u1" none none none none ⟨500, .empty⟩).2.2.2.2.1 ⟨"tok", rfl⟩
    (by norm_num) (by norm_num)
  have hna := (claim_C8_mutating_boolean ⟨⟨[none]⟩⟩ "gw1" "ds1" "p1" "Group" "Read"
    "g1" "u1" none none none none ⟨200, .empty⟩).2.2.2.2.2
    (by rintro ⟨t, ht⟩; exact nomatch ht)
  exact ⟨h200.1, h200.2.1, h200.2.2, h500.1, h500.2.2.2.1, hna.2.1⟩
